import Mathlib

/-!
Verification of the Vulkan renderer core of stardroid-ng against its
natural-language specification.

The development shallowly embeds the relevant code of
`app/src/main/cpp/vulkan_wrapper.cpp` and `app/src/main/cpp/vulkan_raii.h`:

* `VulkanContext` models the session state fields that the host-facing
  entry points read and write (the `VulkanContext` struct of the source);
  GPU handles themselves are not part of this state, only the bookkeeping
  the C++ code performs on plain fields.
* Each JNI entry point (`nativeBeginFrame`, `nativeDraw`, `nativeEndFrame`,
  `nativeRender`, `nativeResize`, `nativeSetViewMatrix`,
  `nativeSetProjectionMatrix`, `nativeDestroy`) becomes a pure function
  from the optional context (the `jlong` handle, `none` = null) and the
  results the Vulkan driver returns (acquire / begin / submit / present
  outcomes, which are the only nondeterminism) to the updated context plus
  a trace of the Vulkan calls issued (`Event` list).
* Machine-integer behaviour is kept where it matters: the dynamic-buffer
  byte size is computed in `size_t` arithmetic modulo 2^64, and the host
  dimensions / vertex counts are `Int` (JNI `jint`).
* Float payloads (matrices, vertex data) are carried as opaque 32-bit
  bit-pattern words (`List Nat`); the code only ever memcpy-s them, so no
  floating-point arithmetic needs to be modelled.
-/

namespace Stardroid

/-- `MAX_FRAMES_IN_FLIGHT` from vulkan_wrapper.cpp line 55. -/
def MAX_FRAMES_IN_FLIGHT : Nat := 2

/-- Capacity of the dynamic vertex buffer, set in `createDynamicVertexBuffer`
(vulkan_wrapper.cpp line 951): 512 KiB. -/
def DYNAMIC_VERTEX_BUFFER_SIZE : Nat := 512 * 1024

/-- `size_t` arithmetic is modulo 2^64 (LP64 Android NDK target). -/
def SIZE_T_MOD : Nat := 2 ^ 64

/-- Bit patterns of the identity matrix produced by `math::identity`
(math_utils.h): 1.0f (pattern 0x3F800000 = 1065353216) on the diagonal,
0.0f elsewhere, column-major. -/
def identityMatrixBits : List Nat :=
  [1065353216, 0, 0, 0,
   0, 1065353216, 0, 0,
   0, 0, 1065353216, 0,
   0, 0, 0, 1065353216]

/-- Outcomes of `vkAcquireNextImageKHR` that the code distinguishes
(vulkan_wrapper.cpp lines 1499-1505 and 1665-1671). -/
inductive AcquireResult where
  | success
  | suboptimal
  | outOfDate
  | errorOther
  deriving DecidableEq, Repr

/-- Outcomes of `vkQueuePresentKHR` that the code distinguishes
(vulkan_wrapper.cpp lines 1550-1554 and 1868-1872). -/
inductive PresentResult where
  | success
  | suboptimal
  | outOfDate
  | errorOther
  deriving DecidableEq, Repr

/-- The owned resources of the `VulkanContext` struct (vulkan_wrapper.cpp
lines 61-149), at the granularity of its RAII members; the vectors of
per-image / per-frame objects are one entry each.  Non-owning members
(physicalDevice, queues, swapchainImages, descriptorSet, commandBuffers)
and the debug-only messenger are omitted.  `inst` is the VkInstance. -/
inductive Resource where
  | nativeWindow
  | inst
  | surface
  | device
  | swapchain
  | imageViews
  | renderPass
  | framebuffers
  | descriptorSetLayout
  | descriptorPool
  | uniformBuffer
  | uniformBufferMemory
  | vertexBuffer
  | vertexBufferMemory
  | dynamicVertexBuffer
  | dynamicVertexBufferMemory
  | pipelineLayout
  | trianglePipeline
  | linePipeline
  | pointPipeline
  | commandPool
  | imageAvailableSemaphores
  | renderFinishedSemaphores
  | inFlightFences
  deriving DecidableEq, Repr

/-- Order in which the resources are constructed by `nativeInit`
(vulkan_wrapper.cpp lines 1402-1478, with the creation order inside each
helper: `createUniformBuffer` creates the buffer then its memory,
`createGraphicsPipelines` creates the layout then the triangle, line and
point pipelines, `createVertexBuffer` / `createDynamicVertexBuffer` create
buffer then memory, `createSyncObjects` fills the three vectors). -/
def constructionOrder : List Resource :=
  [.nativeWindow, .inst, .surface, .device,
   .swapchain, .imageViews, .renderPass,
   .descriptorSetLayout, .uniformBuffer, .uniformBufferMemory, .descriptorPool,
   .pipelineLayout, .trianglePipeline, .linePipeline, .pointPipeline,
   .vertexBuffer, .vertexBufferMemory,
   .dynamicVertexBuffer, .dynamicVertexBufferMemory,
   .framebuffers, .commandPool,
   .imageAvailableSemaphores, .renderFinishedSemaphores, .inFlightFences]

/-- Member declaration order of the owning members of the `VulkanContext`
struct (vulkan_wrapper.cpp lines 61-149).  C++ destroys members in reverse
declaration order, so the teardown order is the reverse of this list. -/
def declarationOrder : List Resource :=
  [.nativeWindow, .inst, .surface, .device,
   .swapchain, .imageViews, .renderPass, .framebuffers,
   .descriptorSetLayout, .descriptorPool,
   .uniformBuffer, .uniformBufferMemory,
   .vertexBuffer, .vertexBufferMemory,
   .dynamicVertexBuffer, .dynamicVertexBufferMemory,
   .pipelineLayout, .trianglePipeline, .linePipeline, .pointPipeline,
   .commandPool,
   .imageAvailableSemaphores, .renderFinishedSemaphores, .inFlightFences]

/-- The order in which `delete ctx` (in `nativeDestroy`) destroys the owned
resources: reverse member declaration order, per the C++ destruction rule
the source relies on (comment at vulkan_wrapper.cpp lines 58-60). -/
def destructionOrder : List Resource := declarationOrder.reverse

/-- Direct dependencies between resources: `(a, b)` means `a` was created
from / refers to `b`, so `a` must be destroyed before `b`. -/
def dependsOn : List (Resource × Resource) :=
  [(.surface, .inst), (.surface, .nativeWindow), (.device, .inst),
   (.swapchain, .device), (.swapchain, .surface),
   (.imageViews, .swapchain), (.imageViews, .device),
   (.renderPass, .device),
   (.framebuffers, .renderPass), (.framebuffers, .imageViews), (.framebuffers, .device),
   (.descriptorSetLayout, .device), (.descriptorPool, .device),
   (.uniformBuffer, .device), (.uniformBufferMemory, .device),
   (.vertexBuffer, .device), (.vertexBufferMemory, .device),
   (.dynamicVertexBuffer, .device), (.dynamicVertexBufferMemory, .device),
   (.pipelineLayout, .device),
   (.trianglePipeline, .pipelineLayout), (.trianglePipeline, .device),
   (.linePipeline, .pipelineLayout), (.linePipeline, .device),
   (.pointPipeline, .pipelineLayout), (.pointPipeline, .device),
   (.commandPool, .device),
   (.imageAvailableSemaphores, .device), (.renderFinishedSemaphores, .device),
   (.inFlightFences, .device)]

/-- Vulkan calls / observable actions issued by the entry points. -/
inductive Event where
  | waitFence
  | acquireImage
  | resetFence
  | resetCommandBuffer
  | beginCommandBuffer
  | beginRenderPass
  | bindDescriptorSets
  | setViewport
  | setScissor
  | copyVertexData (offset size : Nat)
  | bindPipeline (pipeline : Nat)
  | pushConstants (transform : List Nat)
  | bindVertexBuffer (offset : Nat)
  | cmdDraw (vertexCount : Int)
  | endRenderPass
  | endCommandBuffer
  | submit
  | present
  | waitIdle
  | destroyFramebuffers
  | destroyImageViews
  | destroySwapchain
  | createSwapchain
  | createImageViews
  | createFramebuffers
  | writeUniformView
  | writeUniformProj
  | destroyResource (r : Resource)
  deriving DecidableEq, Repr

/-- The mutable session state of the `VulkanContext` struct that the entry
points read and write (vulkan_wrapper.cpp lines 61-149).  Matrix and
buffer contents are 32-bit word lists; `dynBufferWrites` logs the memcpy-s
into the persistently mapped dynamic vertex buffer as (offset, words). -/
structure VulkanContext where
  currentFrame : Nat
  width : Int
  height : Int
  initialized : Bool
  frameCount : Nat
  viewMatrix : List Nat
  projectionMatrix : List Nat
  inFrame : Bool
  currentImageIndex : Nat
  dynamicVertexBufferSize : Nat
  dynamicVertexBufferOffset : Nat
  uniformBufferMapped : Bool
  uniformViewContents : List Nat
  uniformProjContents : List Nat
  dynBufferWrites : List (Nat × List Nat)
  deriving DecidableEq, Repr

/-- Trace of `recreateSwapchain` (vulkan_wrapper.cpp lines 1311-1324):
`vkDeviceWaitIdle`, then `cleanupSwapchain` (lines 1302-1306: clear the
framebuffer vector, clear the image-view vector, reset the swapchain
handle — destroying in that order), then rebuild.  `scOk` / `ivOk` say
whether `createSwapchain` / `createImageViews` succeed; a failure stops
the rebuild early (the function returns false). -/
def recreateSwapchainTrace (scOk ivOk : Bool) : List Event :=
  [.waitIdle, .destroyFramebuffers, .destroyImageViews, .destroySwapchain,
   .createSwapchain]
  ++ (if scOk then
        [Event.createImageViews] ++ (if ivOk then [Event.createFramebuffers] else [])
      else [])

/-- `size_t vertexDataSize = vertexCount * 7 * sizeof(float);`
(vulkan_wrapper.cpp line 1748): `vertexCount * 7` in `int` arithmetic,
converted to `size_t` (wrapping modulo 2^64 for negative values), then
multiplied by 4 in `size_t` arithmetic. -/
def vertexDataSizeOf (vertexCount : Int) : Nat :=
  (((vertexCount * 7) % (2 ^ 64 : Int)).toNat * 4) % SIZE_T_MOD

/-- Pipeline selected by `nativeDraw`'s switch on `primitiveType`
(vulkan_wrapper.cpp lines 1780-1792): 0 = point, 1 = line,
2 and default = triangle.  Encoded 0/1/2. -/
def pipelineFor (primitiveType : Int) : Nat :=
  if primitiveType = 0 then 0
  else if primitiveType = 1 then 1
  else 2

/-- `nativeBeginFrame` (vulkan_wrapper.cpp lines 1647-1728).  Inputs beyond
the context: the `vkAcquireNextImageKHR` outcome `acq` and the image index
`img` it returns on (sub)optimal success, whether `vkBeginCommandBuffer`
succeeds (`beginCBOk`), and the success of the two creation steps of a
possible swapchain rebuild.  Returns the updated context, the `jboolean`
result and the trace of issued calls. -/
def nativeBeginFrame (ctx? : Option VulkanContext) (acq : AcquireResult)
    (img : Nat) (beginCBOk scOk ivOk : Bool) :
    Option VulkanContext × Bool × List Event :=
  match ctx? with
  | none => (none, false, [])
  | some ctx =>
    if ctx.initialized = false then (some ctx, false, [])
    else
      let evs := [Event.waitFence, Event.acquireImage]
      match acq with
      | .outOfDate =>
        (some ctx, false, evs ++ recreateSwapchainTrace scOk ivOk)
      | .errorOther => (some ctx, false, evs)
      | .success | .suboptimal =>
        let ctx1 := { ctx with currentImageIndex := img }
        let evs1 := evs ++ [Event.resetFence, Event.resetCommandBuffer,
                            Event.beginCommandBuffer]
        if beginCBOk = false then (some ctx1, false, evs1)
        else
          let ctx2 := { ctx1 with dynamicVertexBufferOffset := 0, inFrame := true }
          (some ctx2, true,
           evs1 ++ [Event.beginRenderPass, Event.bindDescriptorSets,
                    Event.setViewport, Event.setScissor])

/-- `nativeDraw` (vulkan_wrapper.cpp lines 1731-1809).  `vertices` is the
caller's float array (as 32-bit words), `vertexCount` the `jint` count,
`transform?` the optional 16-float transform.  The overflow check and the
offset advance are `size_t` arithmetic. -/
def nativeDraw (ctx? : Option VulkanContext) (primitiveType : Int)
    (vertices : List Nat) (vertexCount : Int) (transform? : Option (List Nat)) :
    Option VulkanContext × List Event :=
  match ctx? with
  | none => (none, [])
  | some ctx =>
    if ctx.initialized = false ∨ ctx.inFrame = false then (some ctx, [])
    else
      let vertexDataSize := vertexDataSizeOf vertexCount
      if (ctx.dynamicVertexBufferOffset + vertexDataSize) % SIZE_T_MOD
          > ctx.dynamicVertexBufferSize then
        (some ctx, [])
      else
        let transform := match transform? with
          | some t => t
          | none => identityMatrixBits
        let off := ctx.dynamicVertexBufferOffset
        let ctx1 := { ctx with
          dynBufferWrites := ctx.dynBufferWrites ++ [(off, vertices)],
          dynamicVertexBufferOffset := (off + vertexDataSize) % SIZE_T_MOD }
        (some ctx1,
         [Event.copyVertexData off vertexDataSize,
          Event.bindPipeline (pipelineFor primitiveType),
          Event.pushConstants transform,
          Event.bindVertexBuffer off,
          Event.cmdDraw vertexCount])

/-- `nativeEndFrame` (vulkan_wrapper.cpp lines 1812-1880).  Inputs beyond
the context: whether `vkEndCommandBuffer` and `vkQueueSubmit` succeed, the
`vkQueuePresentKHR` outcome, and the success of the creation steps of a
possible rebuild.  `inFrame` is cleared first (line 1821); the frame
cursor advances `(c+1) % MAX_FRAMES_IN_FLIGHT` and `frameCount` is bumped
only after a successful submit (lines 1874-1877). -/
def nativeEndFrame (ctx? : Option VulkanContext) (endCBOk submitOk : Bool)
    (present : PresentResult) (scOk ivOk : Bool) :
    Option VulkanContext × List Event :=
  match ctx? with
  | none => (none, [])
  | some ctx =>
    if ctx.initialized = false ∨ ctx.inFrame = false then (some ctx, [])
    else
      let ctx1 := { ctx with inFrame := false }
      let evs := [Event.endRenderPass, Event.endCommandBuffer]
      if endCBOk = false then (some ctx1, evs)
      else
        let evs := evs ++ [Event.submit]
        if submitOk = false then (some ctx1, evs)
        else
          let evs := evs ++ [Event.present]
          let evs2 := match present with
            | .outOfDate | .suboptimal => evs ++ recreateSwapchainTrace scOk ivOk
            | _ => evs
          (some { ctx1 with
                    currentFrame := (ctx1.currentFrame + 1) % MAX_FRAMES_IN_FLIGHT,
                    frameCount := ctx1.frameCount + 1 },
           evs2)

/-- `nativeRender` (vulkan_wrapper.cpp lines 1481-1562), the legacy
single-call frame: wait, acquire, record, submit, present, advance.  The
acquired image index is a local there, so the context's
`currentImageIndex` is untouched.  `recordOk` covers
`recordCommandBuffer`'s begin/end results. -/
def nativeRender (ctx? : Option VulkanContext) (acq : AcquireResult)
    (recordOk submitOk : Bool) (present : PresentResult) (scOk ivOk : Bool) :
    Option VulkanContext × List Event :=
  match ctx? with
  | none => (none, [])
  | some ctx =>
    if ctx.initialized = false then (some ctx, [])
    else
      let evs := [Event.waitFence, Event.acquireImage]
      match acq with
      | .outOfDate => (some ctx, evs ++ recreateSwapchainTrace scOk ivOk)
      | .errorOther => (some ctx, evs)
      | .success | .suboptimal =>
        let evs := evs ++ [Event.resetFence, Event.resetCommandBuffer]
        if recordOk = false then (some ctx, evs)
        else
          let evs := evs ++ [Event.submit]
          if submitOk = false then (some ctx, evs)
          else
            let evs := evs ++ [Event.present]
            let evs2 := match present with
              | .outOfDate | .suboptimal => evs ++ recreateSwapchainTrace scOk ivOk
              | _ => evs
            (some { ctx with
                      currentFrame := (ctx.currentFrame + 1) % MAX_FRAMES_IN_FLIGHT,
                      frameCount := ctx.frameCount + 1 },
             evs2)

/-- `nativeResize` (vulkan_wrapper.cpp lines 1564-1585): ignore
non-positive dimensions, rebuild once when the size actually changed. -/
def nativeResize (ctx? : Option VulkanContext) (width height : Int)
    (scOk ivOk : Bool) : Option VulkanContext × List Event :=
  match ctx? with
  | none => (none, [])
  | some ctx =>
    if ctx.initialized = false then (some ctx, [])
    else if width ≤ 0 ∨ height ≤ 0 then (some ctx, [])
    else if ctx.width ≠ width ∨ ctx.height ≠ height then
      (some { ctx with width := width, height := height },
       recreateSwapchainTrace scOk ivOk)
    else (some ctx, [])

/-- `nativeSetViewMatrix` (vulkan_wrapper.cpp lines 1604-1622).
`matrix?` is `none` when `GetFloatArrayElements` returns null. -/
def nativeSetViewMatrix (ctx? : Option VulkanContext)
    (matrix? : Option (List Nat)) : Option VulkanContext × List Event :=
  match ctx? with
  | none => (none, [])
  | some ctx =>
    if ctx.initialized = false ∨ ctx.uniformBufferMapped = false then
      (some ctx, [])
    else
      match matrix? with
      | none => (some ctx, [])
      | some m =>
        (some { ctx with viewMatrix := m, uniformViewContents := m },
         [Event.writeUniformView])

/-- `nativeSetProjectionMatrix` (vulkan_wrapper.cpp lines 1625-1644). -/
def nativeSetProjectionMatrix (ctx? : Option VulkanContext)
    (matrix? : Option (List Nat)) : Option VulkanContext × List Event :=
  match ctx? with
  | none => (none, [])
  | some ctx =>
    if ctx.initialized = false ∨ ctx.uniformBufferMapped = false then
      (some ctx, [])
    else
      match matrix? with
      | none => (some ctx, [])
      | some m =>
        (some { ctx with projectionMatrix := m, uniformProjContents := m },
         [Event.writeUniformProj])

/-- `nativeDestroy` (vulkan_wrapper.cpp lines 1587-1601): null handle is a
no-op; otherwise `delete ctx` runs the member destructors in reverse
declaration order (modelled here for a fully initialized context, where
every owned handle is non-null). -/
def nativeDestroy (ctx? : Option VulkanContext) :
    Option VulkanContext × List Event :=
  match ctx? with
  | none => (none, [])
  | some _ => (none, destructionOrder.map Event.destroyResource)

/-!  The `VulkanHandle<HandleT, Deleter>` RAII wrapper (vulkan_raii.h lines
19-81).  A handle value is a `Nat` with 0 standing for `HandleT{}` (the
null handle); the deleter is identified by a `Nat` tag (the concrete
deleter structs are stateless apart from their parent-handle context,
which does not affect whether / on what the destroy runs). -/

/-- State of one `VulkanHandle` object: the `handle_` and `deleter_`
members. -/
structure VulkanHandle where
  handle : Nat
  deleter : Nat
  deriving DecidableEq, Repr

/-- The destructor (vulkan_raii.h lines 29-33): invokes
`deleter_(handle_)` iff the handle is non-null.  Returned as the list of
(deleter, handle) destroy invocations it performs. -/
def VulkanHandle.dtorCalls (h : VulkanHandle) : List (Nat × Nat) :=
  if h.handle ≠ 0 then [(h.deleter, h.handle)] else []

/-- The move constructor (vulkan_raii.h lines 39-42): the new object takes
the handle and deleter, the source's handle is set to `HandleT{}`.
Returns (new object, moved-from source). -/
def VulkanHandle.moveCtor (src : VulkanHandle) : VulkanHandle × VulkanHandle :=
  ({ handle := src.handle, deleter := src.deleter },
   { handle := 0, deleter := src.deleter })

/-- Move assignment between distinct objects (vulkan_raii.h lines 44-54):
the destination's old handle is destroyed if non-null, then the handle and
deleter transfer and the source's handle is nulled.  Returns
(new destination, moved-from source, destroy calls made by the
assignment).  The `this != &other` self-assignment guard makes
self-assignment a no-op; aliasing has no counterpart in this value model,
so the definition covers the two-object case. -/
def VulkanHandle.moveAssign (dst src : VulkanHandle) :
    VulkanHandle × VulkanHandle × List (Nat × Nat) :=
  ({ handle := src.handle, deleter := src.deleter },
   { handle := 0, deleter := src.deleter },
   if dst.handle ≠ 0 then [(dst.deleter, dst.handle)] else [])

/-- Number of destroy invocations on handle value `h` in a list of
(deleter, handle) calls. -/
def destroyCount (h : Nat) (calls : List (Nat × Nat)) : Nat :=
  (calls.filter (fun c => c.2 = h)).length

/-!  The dynamic vertex allocator.  `nativeBeginFrame` zeroes the write
cursor (line 1724); `nativeDraw` rejects a batch when
`offset + byteSize > capacity` and otherwise hands out the byte range
starting at the old offset and advances the offset by `byteSize`
(lines 1748-1756 and 1808). -/

/-- One allocation of the bump allocator embedded from `nativeDraw`
(vulkan_wrapper.cpp lines 1751-1756, 1808), abstracted over the byte size:
fails iff the new cursor would exceed `cap`, otherwise returns the start
of the handed-out range and the new cursor. -/
def dynAlloc (cap off byteSize : Nat) : Option (Nat × Nat) :=
  if off + byteSize > cap then none else some (off, off + byteSize)

/-- Run a sequence of allocations from cursor `off`; `none` as soon as one
fails, otherwise the final cursor. -/
def dynAllocAll (cap : Nat) (off : Nat) : List Nat → Option Nat
  | [] => some off
  | sz :: rest =>
    match dynAlloc cap off sz with
    | none => none
    | some (_, off1) => dynAllocAll cap off1 rest

/-!  Surface-format choice (vulkan_wrapper.cpp lines 499-509). -/

/-- A `VkSurfaceFormatKHR`: a format and a color space, as their Vulkan
enum values. -/
structure VkSurfaceFormatKHR where
  format : Nat
  colorSpace : Nat
  deriving DecidableEq, Repr

/-- `VK_FORMAT_B8G8R8A8_UNORM` (Vulkan enum value 44). -/
def VK_FORMAT_B8G8R8A8_UNORM : Nat := 44

/-- `VK_COLOR_SPACE_SRGB_NONLINEAR_KHR` (Vulkan enum value 0). -/
def VK_COLOR_SPACE_SRGB_NONLINEAR_KHR : Nat := 0

/-- The preference test of the loop in `chooseSwapSurfaceFormat`
(lines 501-506): 8-bit-per-channel BGRA with sRGB-nonlinear color space. -/
def isPreferredFormat (f : VkSurfaceFormatKHR) : Bool :=
  f.format = VK_FORMAT_B8G8R8A8_UNORM ∧
    f.colorSpace = VK_COLOR_SPACE_SRGB_NONLINEAR_KHR

/-- `chooseSwapSurfaceFormat` (vulkan_wrapper.cpp lines 500-509): return
the first format matching the preference, else `formats[0]`.  The source
indexes `formats[0]` unconditionally; callers guarantee non-emptiness
(`createSwapchain` fails first on an empty list, line 541), so the empty
case carries a default. -/
def chooseSwapSurfaceFormat (formats : List VkSurfaceFormatKHR) :
    VkSurfaceFormatKHR :=
  match formats.find? isPreferredFormat with
  | some f => f
  | none => formats.headD ⟨0, 0⟩

/-- A concrete freshly initialized session (1080 x 1920 surface), used as a
sample input by witnesses below. -/
def sampleCtx : VulkanContext :=
  { currentFrame := 0, width := 1080, height := 1920, initialized := true,
    frameCount := 0, viewMatrix := identityMatrixBits,
    projectionMatrix := identityMatrixBits, inFrame := false,
    currentImageIndex := 0,
    dynamicVertexBufferSize := DYNAMIC_VERTEX_BUFFER_SIZE,
    dynamicVertexBufferOffset := 0, uniformBufferMapped := true,
    uniformViewContents := identityMatrixBits,
    uniformProjContents := identityMatrixBits, dynBufferWrites := [] }

/-- `sampleCtx` between `nativeBeginFrame` and `nativeEndFrame`. -/
def sampleCtxInFrame : VulkanContext := { sampleCtx with inFrame := true }

/-!  Theorems, one per claim. -/

/-- The preference test holds exactly of the BGRA8 / sRGB-nonlinear pair. -/
theorem isPreferredFormat_iff (f : VkSurfaceFormatKHR) :
    isPreferredFormat f = true ↔
      f = ⟨VK_FORMAT_B8G8R8A8_UNORM, VK_COLOR_SPACE_SRGB_NONLINEAR_KHR⟩ := by
  cases f with
  | mk fmt cs =>
    simp [isPreferredFormat, VkSurfaceFormatKHR.mk.injEq]

/-- C9: the surface-format choice is a pure function of the candidate list;
on every non-empty list it returns the BGRA8 + sRGB-nonlinear entry when
one is present, and the first element of the list otherwise. -/
theorem chooseSwapSurfaceFormat_spec (formats : List VkSurfaceFormatKHR)
    (hne : formats ≠ []) :
    ((⟨VK_FORMAT_B8G8R8A8_UNORM, VK_COLOR_SPACE_SRGB_NONLINEAR_KHR⟩ : VkSurfaceFormatKHR)
        ∈ formats →
      chooseSwapSurfaceFormat formats =
        ⟨VK_FORMAT_B8G8R8A8_UNORM, VK_COLOR_SPACE_SRGB_NONLINEAR_KHR⟩) ∧
    (((⟨VK_FORMAT_B8G8R8A8_UNORM, VK_COLOR_SPACE_SRGB_NONLINEAR_KHR⟩ : VkSurfaceFormatKHR)
        ∉ formats) →
      chooseSwapSurfaceFormat formats = formats.head hne) := by
  constructor
  · intro hmem
    have hfind : formats.find? isPreferredFormat ≠ none := by
      intro hnone
      rw [List.find?_eq_none] at hnone
      exact absurd ((isPreferredFormat_iff _).mpr rfl) (by simpa using hnone _ hmem)
    obtain ⟨f, hf⟩ := Option.ne_none_iff_exists'.mp hfind
    have := (isPreferredFormat_iff f).mp (List.find?_some hf)
    simp [chooseSwapSurfaceFormat, hf, this]
  · intro hnmem
    have hfind : formats.find? isPreferredFormat = none := by
      rw [List.find?_eq_none]
      intro x hx hpx
      exact hnmem (((isPreferredFormat_iff x).mp hpx) ▸ hx)
    cases formats with
    | nil => exact absurd rfl hne
    | cons a t => simp [chooseSwapSurfaceFormat, hfind]

/-- Witness for C9 at two concrete candidate lists: one containing the
preferred pair, one without it. -/
theorem chooseSwapSurfaceFormat_spec_witness :
    chooseSwapSurfaceFormat [⟨1, 2⟩, ⟨44, 0⟩] = ⟨44, 0⟩ ∧
    chooseSwapSurfaceFormat [⟨1, 2⟩, ⟨3, 4⟩] = ⟨1, 2⟩ := by
  constructor
  · exact (chooseSwapSurfaceFormat_spec [⟨1, 2⟩, ⟨44, 0⟩] (by decide)).1 (by decide)
  · exact (chooseSwapSurfaceFormat_spec [⟨1, 2⟩, ⟨3, 4⟩] (by decide)).2 (by decide)

/-- C3: moving a `VulkanHandle` nulls the source, whose destructor then
invokes no destroy operation; the destructor invokes the deleter exactly
when the held handle is non-null; and across a move (construction or
assignment between distinct owners) plus both destructors, every owned
non-null handle is destroyed exactly once — in particular at most once. -/
theorem vulkanHandle_move_spec (s dst : VulkanHandle) :
    (s.moveCtor.2.handle = 0) ∧
    (s.moveCtor.2.dtorCalls = []) ∧
    (s.moveCtor.1.handle = s.handle) ∧
    ((dst.moveAssign s).2.1.handle = 0 ∧ (dst.moveAssign s).2.1.dtorCalls = []) ∧
    (∀ t : VulkanHandle, t.dtorCalls ≠ [] ↔ t.handle ≠ 0) ∧
    (s.handle ≠ 0 →
      destroyCount s.handle (s.moveCtor.1.dtorCalls ++ s.moveCtor.2.dtorCalls) = 1) ∧
    (dst.handle ≠ s.handle →
      (s.handle ≠ 0 →
        destroyCount s.handle
          ((dst.moveAssign s).2.2 ++ (dst.moveAssign s).1.dtorCalls
            ++ (dst.moveAssign s).2.1.dtorCalls) = 1) ∧
      (dst.handle ≠ 0 →
        destroyCount dst.handle
          ((dst.moveAssign s).2.2 ++ (dst.moveAssign s).1.dtorCalls
            ++ (dst.moveAssign s).2.1.dtorCalls) = 1)) := by
  refine ⟨rfl, by simp [VulkanHandle.moveCtor, VulkanHandle.dtorCalls], rfl,
    ⟨rfl, by simp [VulkanHandle.moveAssign, VulkanHandle.dtorCalls]⟩, ?_, ?_, ?_⟩
  · intro t
    by_cases h : t.handle = 0 <;> simp [VulkanHandle.dtorCalls, h]
  · intro hs
    simp [VulkanHandle.moveCtor, VulkanHandle.dtorCalls, destroyCount, hs]
  · intro hne
    constructor
    · intro hs
      by_cases hd : dst.handle = 0 <;>
        simp [VulkanHandle.moveAssign, VulkanHandle.dtorCalls, destroyCount,
              hs, hd, hne, Ne.symm hne]
    · intro hd
      by_cases hs : s.handle = 0 <;>
        simp [VulkanHandle.moveAssign, VulkanHandle.dtorCalls, destroyCount,
              hs, hd, hne, Ne.symm hne]

/-- Witness for C3 at the concrete owners (handle 5, deleter 1) and
(handle 7, deleter 2). -/
theorem vulkanHandle_move_spec_witness :
    destroyCount 5
      ((VulkanHandle.mk 5 1).moveCtor.1.dtorCalls
        ++ (VulkanHandle.mk 5 1).moveCtor.2.dtorCalls) = 1 ∧
    destroyCount 7
      (((VulkanHandle.mk 7 2).moveAssign (VulkanHandle.mk 5 1)).2.2
        ++ ((VulkanHandle.mk 7 2).moveAssign (VulkanHandle.mk 5 1)).1.dtorCalls
        ++ ((VulkanHandle.mk 7 2).moveAssign (VulkanHandle.mk 5 1)).2.1.dtorCalls) = 1 := by
  constructor
  · exact (vulkanHandle_move_spec ⟨5, 1⟩ ⟨7, 2⟩).2.2.2.2.2.1 (by decide)
  · exact ((vulkanHandle_move_spec ⟨5, 1⟩ ⟨7, 2⟩).2.2.2.2.2.2 (by decide)).2 (by decide)

/-- C4 counterexample: the teardown order (reverse member declaration
order of `VulkanContext`) is not the exact reverse of the construction
order of `nativeInit` — e.g. the framebuffers are created after the
buffers, descriptor resources and pipelines but are also destroyed after
them, and the uniform buffer is created before the descriptor pool yet
destroyed before it. -/
theorem destructionOrder_ne_reverse_construction :
    destructionOrder ≠ constructionOrder.reverse := by decide

/-- C4 (amended): teardown runs in the reverse of the member declaration
order — sync objects, command pool, pipelines, dynamic vertex buffer,
vertex buffer, uniform buffer, descriptor resources, framebuffers, render
pass, image views, swapchain, device, surface, instance, native window —
which differs from exact reverse-construction order, but still destroys
every resource before each resource it depends on; `nativeDestroy` emits
exactly this sequence. -/
theorem destruction_respects_dependencies :
    destructionOrder =
      [.inFlightFences, .renderFinishedSemaphores, .imageAvailableSemaphores,
       .commandPool,
       .pointPipeline, .linePipeline, .trianglePipeline, .pipelineLayout,
       .dynamicVertexBufferMemory, .dynamicVertexBuffer,
       .vertexBufferMemory, .vertexBuffer,
       .uniformBufferMemory, .uniformBuffer,
       .descriptorPool, .descriptorSetLayout,
       .framebuffers, .renderPass, .imageViews, .swapchain,
       .device, .surface, .inst, .nativeWindow] ∧
    (dependsOn.all fun p =>
       destructionOrder.indexOf p.1 < destructionOrder.indexOf p.2) = true ∧
    (∀ ctx : VulkanContext,
       (nativeDestroy (some ctx)).2 = destructionOrder.map Event.destroyResource) := by
  exact ⟨by decide, by decide, fun _ => rfl⟩

/-- Destroy operations among the events. -/
def isDestroyEvent : Event → Bool
  | .destroyFramebuffers => true
  | .destroyImageViews => true
  | .destroySwapchain => true
  | .destroyResource _ => true
  | _ => false

/-- C5: every swapchain rebuild first waits for the device to go idle,
then destroys framebuffers, then image views, then the swapchain — in
that order — and only afterwards re-runs the build; no destroy precedes
the drain. -/
theorem recreateSwapchain_drain_then_teardown : ∀ scOk ivOk : Bool,
    (recreateSwapchainTrace scOk ivOk).take 4 =
      [.waitIdle, .destroyFramebuffers, .destroyImageViews, .destroySwapchain] ∧
    ((recreateSwapchainTrace scOk ivOk).drop 4).all
      (fun e => !isDestroyEvent e && !(e == Event.waitIdle)) = true ∧
    Event.createSwapchain ∈ recreateSwapchainTrace scOk ivOk := by
  decide

/-- C7: on an initialized session, a resize with a non-positive dimension
is ignored (no rebuild, cached size unchanged); a resize to the cached
size is a no-op; a resize to a different positive size updates the cached
size and triggers exactly one rebuild. -/
theorem nativeResize_spec (ctx : VulkanContext) (w h : Int) (scOk ivOk : Bool)
    (hinit : ctx.initialized = true) :
    ((w ≤ 0 ∨ h ≤ 0) → nativeResize (some ctx) w h scOk ivOk = (some ctx, [])) ∧
    ((0 < w ∧ 0 < h ∧ ctx.width = w ∧ ctx.height = h) →
      nativeResize (some ctx) w h scOk ivOk = (some ctx, [])) ∧
    ((0 < w ∧ 0 < h ∧ (ctx.width ≠ w ∨ ctx.height ≠ h)) →
      nativeResize (some ctx) w h scOk ivOk =
        (some { ctx with width := w, height := h },
         recreateSwapchainTrace scOk ivOk) ∧
      ((nativeResize (some ctx) w h scOk ivOk).2.count Event.waitIdle = 1)) := by
  refine ⟨?_, ?_, ?_⟩
  · intro hz
    simp [nativeResize, hinit, hz]
  · intro ⟨hw, hh, hcw, hch⟩
    simp [nativeResize, hinit, not_le.mpr hw, not_le.mpr hh, hcw, hch]
  · intro ⟨hw, hh, hne⟩
    have hres : nativeResize (some ctx) w h scOk ivOk =
        (some { ctx with width := w, height := h },
         recreateSwapchainTrace scOk ivOk) := by
      simp only [nativeResize]
      rw [if_neg (by simp [hinit]), if_neg (by omega), if_pos hne]
    refine ⟨hres, ?_⟩
    rw [hres]
    cases scOk <;> cases ivOk <;> rfl

/-- Witness for C7: on the sample 1080 x 1920 session, resize(0, 0) and
resize(1080, 1920) are no-ops, while resize(720, 1280) updates the cached
size and rebuilds exactly once. -/
theorem nativeResize_spec_witness :
    nativeResize (some sampleCtx) 0 0 true true = (some sampleCtx, []) ∧
    nativeResize (some sampleCtx) 1080 1920 true true = (some sampleCtx, []) ∧
    (nativeResize (some sampleCtx) 720 1280 true true).2.count Event.waitIdle = 1 := by
  refine ⟨?_, ?_, ?_⟩
  · exact (nativeResize_spec sampleCtx 0 0 true true rfl).1 (by decide)
  · exact (nativeResize_spec sampleCtx 1080 1920 true true rfl).2.1 (by decide)
  · exact ((nativeResize_spec sampleCtx 720 1280 true true rfl).2.2 (by decide)).2

/-- C2: the frame cursor advances by exactly 1 modulo
`MAX_FRAMES_IN_FLIGHT` = 2 after every completed frame — whether via the
`nativeEndFrame` of a begin/end pair or via one successful `nativeRender`
invocation — never skipping a slot (the new value differs from the old),
and the new value is always in `[0, MAX_FRAMES_IN_FLIGHT)`. -/
theorem frameCursor_spec (ctx : VulkanContext) (present : PresentResult)
    (acq : AcquireResult) (scOk ivOk : Bool)
    (hinit : ctx.initialized = true) :
    (ctx.inFrame = true →
      (nativeEndFrame (some ctx) true true present scOk ivOk).1.map
          VulkanContext.currentFrame
        = some ((ctx.currentFrame + 1) % MAX_FRAMES_IN_FLIGHT)) ∧
    ((acq = .success ∨ acq = .suboptimal) →
      (nativeRender (some ctx) acq true true present scOk ivOk).1.map
          VulkanContext.currentFrame
        = some ((ctx.currentFrame + 1) % MAX_FRAMES_IN_FLIGHT)) ∧
    ((ctx.currentFrame + 1) % MAX_FRAMES_IN_FLIGHT < MAX_FRAMES_IN_FLIGHT) ∧
    (ctx.currentFrame < MAX_FRAMES_IN_FLIGHT →
      (ctx.currentFrame + 1) % MAX_FRAMES_IN_FLIGHT ≠ ctx.currentFrame) := by
  refine ⟨?_, ?_, ?_, ?_⟩
  · intro hin
    cases present <;> simp [nativeEndFrame, hinit, hin]
  · rintro (rfl | rfl) <;> cases present <;> simp [nativeRender, hinit]
  · exact Nat.mod_lt _ (by decide)
  · intro hlt
    unfold MAX_FRAMES_IN_FLIGHT at *
    omega

/-- Witness for C2: three consecutive begin/end cycles on the sample
session take the cursor through 1, 0, 1, and one successful
`nativeRender` from slot 0 moves it to 1. -/
theorem frameCursor_spec_witness :
    ((nativeEndFrame (some sampleCtxInFrame) true true .success true true).1.map
        VulkanContext.currentFrame = some 1) ∧
    ((nativeRender (some sampleCtx) .success true true .success true true).1.map
        VulkanContext.currentFrame = some 1) ∧
    (1 : Nat) % MAX_FRAMES_IN_FLIGHT ≠ 0 := by
  refine ⟨?_, ?_, ?_⟩
  · exact (frameCursor_spec sampleCtxInFrame .success .success true true rfl).1 rfl
  · exact (frameCursor_spec sampleCtx .success .success true true rfl).2.1 (Or.inl rfl)
  · exact (frameCursor_spec sampleCtx .success .success true true rfl).2.2.2 (by decide)

/-- C6 counterexample: on the initialized sample session, an invocation of
`nativeBeginFrame` whose acquire reports suboptimal but whose
`vkBeginCommandBuffer` fails returns false — so a suboptimal acquire does
not by itself guarantee that beginFrame returns true, contrary to the
claim as stated. -/
theorem beginFrame_suboptimal_can_return_false :
    (nativeBeginFrame (some sampleCtx) AcquireResult.suboptimal 0 false true true).2.1
      = false := by rfl

/-- C6 (amended): on an initialized session, an out-of-date acquire
triggers a swapchain rebuild and aborts the frame with false — no fence
reset, no command-buffer reset or recording, no submit, no present; a
suboptimal acquire is accepted and the frame proceeds with true provided
command-buffer recording begins successfully (if `vkBeginCommandBuffer`
fails the frame is likewise aborted with false); and the in-flight fence
is reset only after a successful or suboptimal acquire. -/
theorem beginFrame_acquire_spec (ctx : VulkanContext) (img : Nat)
    (beginCBOk scOk ivOk : Bool) (hinit : ctx.initialized = true) :
    ((nativeBeginFrame (some ctx) .outOfDate img beginCBOk scOk ivOk).2.1 = false ∧
     Event.waitIdle ∈ (nativeBeginFrame (some ctx) .outOfDate img beginCBOk scOk ivOk).2.2 ∧
     Event.createSwapchain ∈ (nativeBeginFrame (some ctx) .outOfDate img beginCBOk scOk ivOk).2.2 ∧
     Event.resetFence ∉ (nativeBeginFrame (some ctx) .outOfDate img beginCBOk scOk ivOk).2.2 ∧
     Event.resetCommandBuffer ∉ (nativeBeginFrame (some ctx) .outOfDate img beginCBOk scOk ivOk).2.2 ∧
     Event.beginCommandBuffer ∉ (nativeBeginFrame (some ctx) .outOfDate img beginCBOk scOk ivOk).2.2 ∧
     Event.submit ∉ (nativeBeginFrame (some ctx) .outOfDate img beginCBOk scOk ivOk).2.2 ∧
     Event.present ∉ (nativeBeginFrame (some ctx) .outOfDate img beginCBOk scOk ivOk).2.2) ∧
    (beginCBOk = true →
      (nativeBeginFrame (some ctx) .suboptimal img beginCBOk scOk ivOk).2.1 = true) ∧
    (∀ acq : AcquireResult,
      Event.resetFence ∈ (nativeBeginFrame (some ctx) acq img beginCBOk scOk ivOk).2.2 →
      acq = .success ∨ acq = .suboptimal) := by
  refine ⟨?_, ?_, ?_⟩
  · simp only [nativeBeginFrame, hinit]
    cases scOk <;> cases ivOk <;> simp <;> decide
  · intro hcb
    simp [nativeBeginFrame, hinit, hcb]
  · intro acq hmem
    cases acq with
    | success => exact Or.inl rfl
    | suboptimal => exact Or.inr rfl
    | outOfDate =>
      exfalso
      revert hmem
      simp only [nativeBeginFrame, hinit]
      cases scOk <;> cases ivOk <;> simp <;> decide
    | errorOther =>
      exfalso
      revert hmem
      simp [nativeBeginFrame, hinit]

/-- Witness for C6 (amended) on the sample session: an out-of-date acquire
returns false without resetting the fence, and a suboptimal acquire with a
successful command-buffer begin returns true. -/
theorem beginFrame_acquire_spec_witness :
    ((nativeBeginFrame (some sampleCtx) .outOfDate 0 true true true).2.1 = false ∧
     Event.resetFence ∉ (nativeBeginFrame (some sampleCtx) .outOfDate 0 true true true).2.2) ∧
    (nativeBeginFrame (some sampleCtx) .suboptimal 0 true true true).2.1 = true := by
  refine ⟨⟨?_, ?_⟩, ?_⟩
  · exact (beginFrame_acquire_spec sampleCtx 0 true true true rfl).1.1
  · exact (beginFrame_acquire_spec sampleCtx 0 true true true rfl).1.2.2.2.1
  · exact (beginFrame_acquire_spec sampleCtx 0 true true true rfl).2.1 rfl

/-- C10: every host-facing entry point invoked with a null session handle,
and every entry point except `nativeDestroy` invoked on a session whose
`initialized` flag is false, returns immediately: the session state is
unchanged and no Vulkan call is issued. -/
theorem nullGuard_spec (ctx : VulkanContext) (acq : AcquireResult) (img : Nat)
    (b1 b2 b3 : Bool) (pres : PresentResult) (pt w h vc : Int)
    (vs : List Nat) (tf? m? : Option (List Nat))
    (huninit : ctx.initialized = false) :
    (nativeRender none acq b1 b2 pres b3 b3 = (none, [])) ∧
    (nativeBeginFrame none acq img b1 b2 b3 = (none, false, [])) ∧
    (nativeDraw none pt vs vc tf? = (none, [])) ∧
    (nativeEndFrame none b1 b2 pres b3 b3 = (none, [])) ∧
    (nativeResize none w h b1 b2 = (none, [])) ∧
    (nativeSetViewMatrix none m? = (none, [])) ∧
    (nativeSetProjectionMatrix none m? = (none, [])) ∧
    (nativeDestroy none = (none, [])) ∧
    (nativeRender (some ctx) acq b1 b2 pres b3 b3 = (some ctx, [])) ∧
    (nativeBeginFrame (some ctx) acq img b1 b2 b3 = (some ctx, false, [])) ∧
    (nativeDraw (some ctx) pt vs vc tf? = (some ctx, [])) ∧
    (nativeEndFrame (some ctx) b1 b2 pres b3 b3 = (some ctx, [])) ∧
    (nativeResize (some ctx) w h b1 b2 = (some ctx, [])) ∧
    (nativeSetViewMatrix (some ctx) m? = (some ctx, [])) ∧
    (nativeSetProjectionMatrix (some ctx) m? = (some ctx, [])) := by
  refine ⟨rfl, rfl, rfl, rfl, rfl, rfl, rfl, rfl, ?_, ?_, ?_, ?_, ?_, ?_, ?_⟩
  · simp [nativeRender, huninit]
  · simp [nativeBeginFrame, huninit]
  · simp [nativeDraw, huninit]
  · simp [nativeEndFrame, huninit]
  · simp [nativeResize, huninit]
  · simp [nativeSetViewMatrix, huninit]
  · simp [nativeSetProjectionMatrix, huninit]

/-- Witness for C10 at an uninitialized copy of the sample session. -/
theorem nullGuard_spec_witness :
    nativeBeginFrame none .success 0 true true true = (none, false, []) ∧
    nativeDraw (some { sampleCtx with initialized := false }) 2 [1, 2, 3] 3 none
      = (some { sampleCtx with initialized := false }, []) := by
  constructor
  · exact (nullGuard_spec { sampleCtx with initialized := false }
      .success 0 true true true .success 2 0 0 3 [1, 2, 3] none none rfl).2.1
  · exact (nullGuard_spec { sampleCtx with initialized := false }
      .success 0 true true true .success 2 0 0 3 [1, 2, 3] none none rfl).2.2.2.2.2.2.2.2.2.2.1

/-- For a `jint` vertex count in `[0, 2^31)`, the `size_t` computation
`vertexCount * 7 * sizeof(float)` is exact: 28 bytes per vertex. -/
theorem vertexDataSizeOf_eq (vc : Int) (h0 : 0 ≤ vc) (h1 : vc < 2 ^ 31) :
    vertexDataSizeOf vc = 28 * vc.toNat := by
  unfold vertexDataSizeOf SIZE_T_MOD
  have h7 : (0 : Int) ≤ vc * 7 := by positivity
  have hlt : vc * 7 < 2 ^ 64 := by nlinarith
  rw [Int.emod_eq_of_lt h7 hlt]
  have htn : (vc * 7).toNat = vc.toNat * 7 := by omega
  rw [htn, Nat.mod_eq_of_lt (by omega)]
  omega

/-- An overflowing draw batch leaves the session untouched (helper shared
by the allocator and rejection theorems). -/
theorem nativeDraw_overflow_eq (ctx : VulkanContext) (pt vc : Int)
    (vs : List Nat) (tf? : Option (List Nat))
    (hinit : ctx.initialized = true) (hin : ctx.inFrame = true)
    (h0 : 0 ≤ vc) (h1 : vc < 2 ^ 31)
    (hnowrap : ctx.dynamicVertexBufferOffset + 28 * vc.toNat < 2 ^ 64)
    (hover : ctx.dynamicVertexBufferOffset + 28 * vc.toNat
      > ctx.dynamicVertexBufferSize) :
    nativeDraw (some ctx) pt vs vc tf? = (some ctx, []) := by
  have hsz := vertexDataSizeOf_eq vc h0 h1
  simp only [nativeDraw, hinit, hin]
  rw [if_neg (by simp), if_pos]
  unfold SIZE_T_MOD
  rw [hsz, Nat.mod_eq_of_lt hnowrap]
  exact hover

/-- C8: a draw call issued outside a beginFrame/endFrame pair, and a draw
call whose byte size would overflow the dynamic buffer, are each complete
no-ops: the session state (write cursor, logged buffer writes, everything
else) is unchanged and no copy or command is issued, so prior draws of the
frame are unaffected and the session stays usable. -/
theorem nativeDraw_rejection_noop (ctx : VulkanContext) (pt vc : Int)
    (vs : List Nat) (tf? : Option (List Nat)) :
    (ctx.inFrame = false → nativeDraw (some ctx) pt vs vc tf? = (some ctx, [])) ∧
    (ctx.initialized = true → ctx.inFrame = true →
     0 ≤ vc → vc < 2 ^ 31 →
     ctx.dynamicVertexBufferOffset + 28 * vc.toNat < 2 ^ 64 →
     ctx.dynamicVertexBufferOffset + 28 * vc.toNat > ctx.dynamicVertexBufferSize →
     nativeDraw (some ctx) pt vs vc tf? = (some ctx, [])) := by
  constructor
  · intro hout
    simp [nativeDraw, hout]
  · intro hinit hin h0 h1 hnowrap hover
    exact nativeDraw_overflow_eq ctx pt vc vs tf? hinit hin h0 h1 hnowrap hover

/-- Witness for C8 on the sample session: a draw outside a frame, and an
overflowing draw (cursor at 524280 of 524288, 1 vertex = 28 bytes) inside
a frame, are both no-ops. -/
theorem nativeDraw_rejection_noop_witness :
    nativeDraw (some sampleCtx) 2 [1, 2, 3] 3 none = (some sampleCtx, []) ∧
    nativeDraw (some { sampleCtxInFrame with dynamicVertexBufferOffset := 524280 })
        2 [1, 2, 3] 1 none
      = (some { sampleCtxInFrame with dynamicVertexBufferOffset := 524280 }, []) := by
  constructor
  · exact (nativeDraw_rejection_noop sampleCtx 2 3 [1, 2, 3] none).1 rfl
  · exact (nativeDraw_rejection_noop
      { sampleCtxInFrame with dynamicVertexBufferOffset := 524280 } 2 1
      [1, 2, 3] none).2 rfl rfl (by decide) (by decide) (by decide) (by decide)

/-- Running allocations whose total fits below the capacity succeeds and
lands the cursor at `off + sizes.sum`. -/
theorem dynAllocAll_of_sum_le (cap : Nat) (sizes : List Nat) :
    ∀ off, off + sizes.sum ≤ cap →
      dynAllocAll cap off sizes = some (off + sizes.sum) := by
  induction sizes with
  | nil => intro off h; simp [dynAllocAll]
  | cons sz rest ih =>
    intro off h
    have hfit : ¬ off + sz > cap := by
      simp only [List.sum_cons] at h
      omega
    simp only [dynAllocAll, dynAlloc, if_neg hfit]
    rw [ih (off + sz) (by simp only [List.sum_cons] at h; omega)]
    congr 1
    simp [List.sum_cons]
    omega

/-- Appending allocation sequences composes. -/
theorem dynAllocAll_append (cap : Nat) (xs ys : List Nat) :
    ∀ off, dynAllocAll cap off (xs ++ ys) =
      match dynAllocAll cap off xs with
      | none => none
      | some o => dynAllocAll cap o ys := by
  induction xs with
  | nil => intro off; simp [dynAllocAll]
  | cons sz rest ih =>
    intro off
    simp only [List.cons_append, dynAllocAll, dynAlloc]
    by_cases h : off + sz > cap
    · simp [h]
    · simp only [if_neg h]
      exact ih (off + sz)

/-- C1: for the dynamic vertex allocator, `nativeBeginFrame` zeroes the
write cursor; a draw batch inside a frame succeeds iff
cursor + byteSize (vertexCount * 7 * 4 bytes) does not exceed the 512 KiB
capacity, on success handing out the range starting at the old cursor and
advancing the cursor by exactly byteSize (a failing batch is rejected
without any state change); no handed-out range exceeds the capacity; and
a sequence of allocations summing to exactly the capacity all succeed
while one further byte fails. -/
theorem dynamicAllocator_spec (ctx : VulkanContext) (img : Nat)
    (scOk ivOk : Bool) (pt vc : Int) (vs : List Nat) (tf? : Option (List Nat))
    (sizes : List Nat) (off sz : Nat) :
    (ctx.initialized = true →
      ((nativeBeginFrame (some ctx) .success img true scOk ivOk).1.map
         VulkanContext.dynamicVertexBufferOffset) = some 0) ∧
    (ctx.initialized = true → ctx.inFrame = true →
     ctx.dynamicVertexBufferSize = DYNAMIC_VERTEX_BUFFER_SIZE →
     ctx.dynamicVertexBufferOffset ≤ DYNAMIC_VERTEX_BUFFER_SIZE →
     0 ≤ vc → vc < 2 ^ 31 →
      (ctx.dynamicVertexBufferOffset + 28 * vc.toNat ≤ DYNAMIC_VERTEX_BUFFER_SIZE →
        nativeDraw (some ctx) pt vs vc tf? =
          (some { ctx with
                    dynBufferWrites :=
                      ctx.dynBufferWrites ++ [(ctx.dynamicVertexBufferOffset, vs)],
                    dynamicVertexBufferOffset :=
                      ctx.dynamicVertexBufferOffset + 28 * vc.toNat },
           [Event.copyVertexData ctx.dynamicVertexBufferOffset (28 * vc.toNat),
            Event.bindPipeline (pipelineFor pt),
            Event.pushConstants (tf?.getD identityMatrixBits),
            Event.bindVertexBuffer ctx.dynamicVertexBufferOffset,
            Event.cmdDraw vc])) ∧
      (ctx.dynamicVertexBufferOffset + 28 * vc.toNat > DYNAMIC_VERTEX_BUFFER_SIZE →
        nativeDraw (some ctx) pt vs vc tf? = (some ctx, []))) ∧
    (∀ a b : Nat, dynAlloc DYNAMIC_VERTEX_BUFFER_SIZE off sz = some (a, b) →
      a = off ∧ b = off + sz ∧ b ≤ DYNAMIC_VERTEX_BUFFER_SIZE) ∧
    (sizes.sum = DYNAMIC_VERTEX_BUFFER_SIZE →
      dynAllocAll DYNAMIC_VERTEX_BUFFER_SIZE 0 sizes
        = some DYNAMIC_VERTEX_BUFFER_SIZE) ∧
    (sizes.sum = DYNAMIC_VERTEX_BUFFER_SIZE →
      dynAllocAll DYNAMIC_VERTEX_BUFFER_SIZE 0 (sizes ++ [1]) = none) := by
  refine ⟨?_, ?_, ?_, ?_, ?_⟩
  · intro hinit
    simp [nativeBeginFrame, hinit]
  · intro hinit hin hcap hcur h0 h1
    have hsz := vertexDataSizeOf_eq vc h0 h1
    have hvcbound : 28 * vc.toNat < 2 ^ 63 := by
      have : vc.toNat < 2 ^ 31 := by omega
      omega
    have hnowrap : ctx.dynamicVertexBufferOffset + 28 * vc.toNat < 2 ^ 64 := by
      unfold DYNAMIC_VERTEX_BUFFER_SIZE at hcur
      omega
    constructor
    · intro hfits
      simp only [nativeDraw, hinit, hin]
      rw [if_neg (by simp)]
      rw [if_neg (by
        unfold SIZE_T_MOD
        rw [hsz, Nat.mod_eq_of_lt hnowrap]
        omega)]
      unfold SIZE_T_MOD
      rw [hsz, Nat.mod_eq_of_lt hnowrap]
      cases tf? <;> rfl
    · intro hover
      exact nativeDraw_overflow_eq ctx pt vc vs tf? hinit hin h0 h1 hnowrap
        (by omega)
  · intro a b hsome
    unfold dynAlloc at hsome
    by_cases h : off + sz > DYNAMIC_VERTEX_BUFFER_SIZE
    · simp [h] at hsome
    · rw [if_neg h] at hsome
      simp only [Option.some.injEq, Prod.mk.injEq] at hsome
      obtain ⟨ha, hb⟩ := hsome
      subst ha
      subst hb
      exact ⟨rfl, rfl, by omega⟩
  · intro hsum
    have := dynAllocAll_of_sum_le DYNAMIC_VERTEX_BUFFER_SIZE sizes 0 (by omega)
    rw [this, Nat.zero_add, hsum]
  · intro hsum
    rw [dynAllocAll_append]
    have := dynAllocAll_of_sum_le DYNAMIC_VERTEX_BUFFER_SIZE sizes 0 (by omega)
    rw [this, Nat.zero_add, hsum]
    simp [dynAllocAll, dynAlloc]

/-- Witness for C1 on the sample session: a successful beginFrame zeroes
the cursor; a 3-vertex draw at cursor 0 hands out 84 bytes starting at 0;
a single allocation of exactly 512 KiB succeeds and one further byte
fails. -/
theorem dynamicAllocator_spec_witness :
    ((nativeBeginFrame (some sampleCtx) .success 0 true true true).1.map
       VulkanContext.dynamicVertexBufferOffset) = some 0 ∧
    ((nativeDraw (some sampleCtxInFrame) 2 [1, 2, 3] 3 none).1.map
       VulkanContext.dynamicVertexBufferOffset) = some 84 ∧
    dynAllocAll DYNAMIC_VERTEX_BUFFER_SIZE 0 [524288] = some DYNAMIC_VERTEX_BUFFER_SIZE ∧
    dynAllocAll DYNAMIC_VERTEX_BUFFER_SIZE 0 [524288, 1] = none := by
  refine ⟨?_, ?_, ?_, ?_⟩
  · exact (dynamicAllocator_spec sampleCtx 0 true true 2 3 [1, 2, 3] none [524288]
      0 0).1 rfl
  · rw [((dynamicAllocator_spec sampleCtxInFrame 0 true true 2 3 [1, 2, 3] none
      [524288] 0 0).2.1 rfl rfl rfl (by decide) (by decide) (by decide)).1 (by decide)]
    rfl
  · exact (dynamicAllocator_spec sampleCtx 0 true true 2 3 [1, 2, 3] none [524288]
      0 0).2.2.2.1 (by decide)
  · exact (dynamicAllocator_spec sampleCtx 0 true true 2 3 [1, 2, 3] none [524288]
      0 0).2.2.2.2 (by decide)

end Stardroid
